import Mathlib

/-!
Verification of the kmux block-structured terminal multiplexer core
(`src/kmux/terminal/block_pty_session.py`, `src/kmux/terminal/pty_session.py`,
`src/kmux/terminal_server.py`).

Shallow embedding conventions:
  * Python `bytes` values are `List Nat` (each element a byte value).
  * Python `bytes.find` / `bytes.rfind` are standard-library primitives and are
    modelled by their documented semantics (`pyFind` / `pyRfind`).
  * The pyte-based VT screen renderer (`render_bytes` in `utils.py`) is outside
    the modelled core; functions that render take an abstract
    `render : List Nat → String` argument standing for it.  `_render` (marker
    stripping followed by rendering) is embedded on top of it.
  * Python exceptions become `Except KmuxError`; exception messages are elided,
    only the exception kind is modelled.
  * `asyncio` events and clocks are externalised: `submit_command`'s wait for
    the session-idle event is modelled by a boolean "the idle event was observed
    before the timeout" plus the cumulative buffer seen on wake-up.
-/

namespace Kmux

/-- A byte, as stored in a Python `bytes` object. -/
abbrev Byte := Nat

/-- The bytes of an ASCII string literal. -/
def strBytes (s : String) : List Byte := s.toList.map Char.toNat

/-- The pattern `pat` occurs in `buf` at offset `i`.  This is the match
condition used by Python `bytes.find` and `bytes.rfind`. -/
def matchAt (buf pat : List Byte) (i : Nat) : Bool := pat.isPrefixOf (buf.drop i)

/-- Semantics of Python `buf.find(pat, start)` for a nonempty `pat`: the
smallest offset `i ≥ start` at which `pat` occurs in `buf` (`none` stands for
Python's `-1`). -/
def pyFind (buf pat : List Byte) (start : Nat) : Option Nat :=
  ((List.range (buf.length + 1)).filter fun i => decide (start ≤ i) && matchAt buf pat i).head?

/-- Semantics of Python `buf.rfind(pat, 0, endPos)` for a nonempty `pat`: the
largest offset `i` with `i + pat.length ≤ endPos` at which `pat` occurs in
`buf` (`none` stands for Python's `-1`).  Python's unbounded `buf.rfind(pat)`
is `pyRfind buf pat buf.length`. -/
def pyRfind (buf pat : List Byte) (endPos : Nat) : Option Nat :=
  ((List.range (buf.length + 1)).filter
    fun i => decide (i + pat.length ≤ endPos) && matchAt buf pat i).getLast?

/-- The four sentinel markers of `_BlockMarker`. -/
inductive BlockMarker
  | editStart
  | editEnd
  | execStart
  | execEnd
  deriving DecidableEq

/-- The fixed 32-hex-digit salt used in every marker (`KMUX_BLOCK_MARKER_SALT`). -/
def markerSalt : String := "1b3e62c774b44f78898be928a7aa6532"

/-- The phase word of each marker. -/
def markerPhase : BlockMarker → String
  | .editStart => "EDITSTART"
  | .editEnd => "EDITEND"
  | .execStart => "EXECSTART"
  | .execEnd => "EXECEND"

/-- The byte string of a marker: `ESC P kmux;PHASE;SALT ESC backslash`
(a DCS envelope), exactly the `_BlockMarker` enum values. -/
def markerValue (m : BlockMarker) : List Byte :=
  [0x1b, 0x50] ++ strBytes ("kmux;" ++ markerPhase m ++ ";" ++ markerSalt) ++ [0x1b, 0x5c]

/-- The members of `_BlockMarker` in Python declaration (= iteration) order. -/
def allMarkers : List BlockMarker := [.editStart, .editEnd, .execStart, .execEnd]

/-- The `while (index := cumulative_output.find(marker.value, start)) != -1`
scan of `_extract_markers`: all occurrence offsets of `pat` in `buf`, scanning
from `start` and continuing after the end of each match.  `fuel` bounds the
iteration count; `buf.length + 1` always suffices because the scan position
strictly increases. -/
def findAllFrom (buf pat : List Byte) : Nat → Nat → List Nat
  | 0, _ => []
  | fuel + 1, start =>
    match pyFind buf pat start with
    | none => []
    | some i => i :: findAllFrom buf pat fuel (i + pat.length)

/-- `_extract_markers`: collect `(offset, marker)` pairs for all four markers
and return the markers sorted by offset.  (Python collects the pairs in a set
and sorts them with `key=lambda x: x[0]`; no two distinct markers can match at
the same offset because the four marker byte strings differ within their
common length, so sorting by offset alone determines the order.) -/
def _extract_markers (buf : List Byte) : List BlockMarker :=
  let found := allMarkers.flatMap
    fun m => (findAllFrom buf (markerValue m) (buf.length + 1) 0).map fun i => (i, m)
  (found.insertionSort fun a b => a.1 ≤ b.1).map Prod.snd

/-- `_SessionStatus` (the `status_string` property is not modelled). -/
inductive SessionStatus
  | executing
  | awaitingCommand
  | inputCommand
  | transientZshProcessing
  | noMarkers
  deriving DecidableEq

/-- The exception kinds raised by the modelled code; messages are elided. -/
inductive KmuxError
  | invalidOperation
  | runtimeError
  | notImplementedError
  | assertionError
  | typeError
  | indexError
  | valueError
  deriving DecidableEq

/-- The `last_markers` tuple of `_get_session_status`:
`(markers[-2], markers[-1])` when there are two or more markers,
`(None, markers[-1])` when there is exactly one, `(None, None)` otherwise. -/
def lastTwoMarkers (markers : List BlockMarker) : Option BlockMarker × Option BlockMarker :=
  match markers.reverse with
  | [] => (none, none)
  | [a] => (none, some a)
  | a :: b :: _ => (some b, some a)

/-- The `if`/`elif` chain of `_get_session_status` (lines 436-452), as a
function of the `last_markers` tuple. -/
def statusFromLastTwo (last_markers : Option BlockMarker × Option BlockMarker) :
    Except KmuxError SessionStatus :=
  if last_markers = (none, none) then .ok .noMarkers
  else if last_markers.2 = some .execStart then .ok .executing
  else if last_markers = (some .execEnd, some .editStart)
      ∨ last_markers = (none, some .editStart) then .ok .awaitingCommand
  else if last_markers = (some .editEnd, some .editStart) then .ok .inputCommand
  else if last_markers.2 = some .editEnd ∨ last_markers.2 = some .execEnd then
    .ok .transientZshProcessing
  else .error .runtimeError

/-- `BlockPtySession._get_session_status`: derive the session status from the
markers extracted from the cumulative output buffer.  The unexpected-state
branch raises `RuntimeError`. -/
def _get_session_status (buf : List Byte) : Except KmuxError SessionStatus :=
  statusFromLastTwo (lastTwoMarkers (_extract_markers buf))

/-- Claim C1's status table, written from the specification: no markers gives
NoMarkers; a last marker ExecStart gives Executing; (ExecEnd, EditStart) as the
last two markers, or EditStart as the only marker, gives AwaitingCommand;
(EditEnd, EditStart) gives InputCommand; a last marker EditEnd or ExecEnd not
covered above gives TransientShellBookkeeping; any other combination is an
internal error. -/
def statusOfLastTwoSpec : Option BlockMarker × Option BlockMarker →
    Except KmuxError SessionStatus
  | (none, none) => .ok .noMarkers
  | (_, some .execStart) => .ok .executing
  | (some .execEnd, some .editStart) => .ok .awaitingCommand
  | (none, some .editStart) => .ok .awaitingCommand
  | (some .editEnd, some .editStart) => .ok .inputCommand
  | (_, some .editEnd) => .ok .transientZshProcessing
  | (_, some .execEnd) => .ok .transientZshProcessing
  | _ => .error .runtimeError

-- Decidable equality for the `Except` results of the embedded operations.
deriving instance DecidableEq for Except

/-- Semantics of Python `data.replace(pat, b'')` for a nonempty `pat`:
remove every occurrence of `pat`, scanning left to right.  `fuel` bounds the
number of removals; `data.length + 1` always suffices. -/
def pyReplaceEmpty (pat : List Byte) : Nat → List Byte → List Byte
  | 0, data => data
  | fuel + 1, data =>
    match pyFind data pat 0 with
    | none => data
    | some i => data.take i ++ pyReplaceEmpty pat fuel (data.drop (i + pat.length))

/-- The marker-stripping prelude of `BlockPtySession._render` (lines 395-399):
all four block markers are removed from the input before rendering. -/
def stripMarkers (data : List Byte) : List Byte :=
  let d1 := pyReplaceEmpty (markerValue .editStart) (data.length + 1) data
  let d2 := pyReplaceEmpty (markerValue .editEnd) (d1.length + 1) d1
  let d3 := pyReplaceEmpty (markerValue .execStart) (d2.length + 1) d2
  pyReplaceEmpty (markerValue .execEnd) (d3.length + 1) d3

/-- `BlockPtySession._render`: strip the four markers, then render through the
pyte screen model.  The screen model (`render_bytes` plus row join/rstrip) is
outside the modelled core and is abstracted as `render`. -/
def _render (render : List Byte → String) (data : List Byte) : String :=
  render (stripMarkers data)

/-- `BlockPtySession.snapshot` (lines 319-356), as a function of the cumulative
output buffer.  `include_all = true` renders the whole buffer; otherwise the
rendered window is chosen by the current session status, and the unhandled
statuses raise `NotImplementedError`. -/
def snapshot (render : List Byte → String) (buf : List Byte) (include_all : Bool) :
    Except KmuxError String :=
  if include_all then .ok (_render render buf)
  else
    match _get_session_status buf with
    | .error e => .error e
    | .ok session_status =>
      if session_status = .executing ∨ session_status = .inputCommand then
        .ok (_render render
          (match pyRfind buf (markerValue .execEnd) buf.length with
            | some i => buf.drop (i + (markerValue .execEnd).length)
            | none => buf.drop 0))
      else if session_status = .awaitingCommand then
        let last_exec_end_index :=
          match pyRfind buf (markerValue .execEnd) buf.length with
          | none => buf.length
          | some i => i
        let render_start :=
          match pyRfind buf (markerValue .execEnd) last_exec_end_index with
          | none => 0
          | some i => i + (markerValue .execEnd).length
        .ok (_render render (buf.drop render_start))
      else .error .notImplementedError

/-- `_ParseState`. -/
inductive ParseState
  | waitEditStart
  | waitEditEnd
  | waitExecStartOrNextEdit
  | waitExecEnd
  deriving DecidableEq

/-- `_CommandBlock`: the byte parts of a (possibly multi-line) command, and its
rendered output (`none` while the command is still being edited). -/
structure CommandBlock where
  command_parts : List (List Byte)
  output : Option String
  deriving DecidableEq

/-- The configuration in which the `while` loop of `_parse_output` terminates. -/
structure ParseExit where
  state : ParseState
  cursor : Nat
  command_parts : List (List Byte)
  blocks : List CommandBlock
  deriving DecidableEq

/-- Python `x == -1 or x >= bound` for a find result `x`, as used by the
assertion guards of `_parse_output`. -/
def optionNotBefore (x : Option Nat) (bound : Nat) : Bool :=
  match x with
  | none => true
  | some k => decide (bound ≤ k)

/-- The `while cursor < len(output)` loop of `BlockPtySession._parse_output`
(lines 461-538).  Returns the exit configuration, or the assertion /
invariant errors the loop can raise.  `fuel` bounds the iteration count;
`2 * output.length + 2` always suffices, because every iteration either
strictly increases the cursor or moves from `waitExecStartOrNextEdit` to
`waitEditStart` at an unchanged cursor that the next iteration strictly
increases. -/
def parseLoop (render : List Byte → String) (output : List Byte) :
    Nat → ParseState → Nat → List (List Byte) → List CommandBlock →
    Except KmuxError ParseExit
  | 0, state, cursor, command_parts, blocks => .ok ⟨state, cursor, command_parts, blocks⟩
  | fuel + 1, state, cursor, command_parts, blocks =>
    if output.length ≤ cursor then .ok ⟨state, cursor, command_parts, blocks⟩
    else
      match state with
      | .waitEditStart =>
        match pyFind output (markerValue .editStart) cursor with
        | none => .ok ⟨.waitEditStart, cursor, command_parts, blocks⟩
        | some edit_start =>
          parseLoop render output fuel .waitEditEnd
            (edit_start + (markerValue .editStart).length) command_parts blocks
      | .waitEditEnd =>
        match pyFind output (markerValue .editEnd) cursor with
        | none => .ok ⟨.waitEditEnd, cursor, command_parts, blocks⟩
        | some edit_end =>
          if optionNotBefore (pyFind output (markerValue .editStart) cursor) edit_end
              && optionNotBefore (pyFind output (markerValue .execStart) cursor) edit_end
              && optionNotBefore (pyFind output (markerValue .execEnd) cursor) edit_end then
            parseLoop render output fuel .waitExecStartOrNextEdit
              (edit_end + (markerValue .editEnd).length)
              (command_parts ++ [(output.drop cursor).take (edit_end - cursor)]) blocks
          else .error .assertionError
      | .waitExecStartOrNextEdit =>
        if command_parts.length = 0 then .error .assertionError
        else
          match pyFind output (markerValue .execStart) cursor,
              pyFind output (markerValue .editStart) cursor with
          | none, none => .ok ⟨.waitExecStartOrNextEdit, cursor, command_parts, blocks⟩
          | none, some next_edit_start =>
            parseLoop render output fuel .waitEditStart next_edit_start command_parts blocks
          | some exec_start, none =>
            parseLoop render output fuel .waitExecEnd
              (exec_start + (markerValue .execStart).length) command_parts blocks
          | some exec_start, some next_edit_start =>
            if next_edit_start < exec_start then
              parseLoop render output fuel .waitEditStart next_edit_start command_parts blocks
            else if exec_start < next_edit_start then
              parseLoop render output fuel .waitExecEnd
                (exec_start + (markerValue .execStart).length) command_parts blocks
            else .error .runtimeError
      | .waitExecEnd =>
        if command_parts.length = 0 then .error .assertionError
        else
          match pyFind output (markerValue .execEnd) cursor with
          | none => .ok ⟨.waitExecEnd, cursor, command_parts, blocks⟩
          | some exec_end =>
            if optionNotBefore (pyFind output (markerValue .editStart) cursor) exec_end
                && optionNotBefore (pyFind output (markerValue .editEnd) cursor) exec_end
                && optionNotBefore (pyFind output (markerValue .execStart) cursor) exec_end then
              parseLoop render output fuel .waitEditStart
                (exec_end + (markerValue .execEnd).length) []
                (blocks ++ [⟨command_parts,
                  some (_render render ((output.drop cursor).take (exec_end - cursor)))⟩])
            else .error .assertionError

/-- `BlockPtySession._parse_output`: run the parse loop over the whole buffer,
then emit the trailing in-flight block demanded by the exit state
(lines 540-561). -/
def _parse_output (render : List Byte → String) (output : List Byte) :
    Except KmuxError (List CommandBlock) :=
  match parseLoop render output (2 * output.length + 2) .waitEditStart 0 [] [] with
  | .error e => .error e
  | .ok ex =>
    match ex.state with
    | .waitEditEnd =>
      if 0 < ex.command_parts.length then
        .ok (ex.blocks ++ [⟨ex.command_parts, none⟩])
      else .ok ex.blocks
    | .waitExecEnd =>
      .ok (ex.blocks ++ [⟨ex.command_parts, some (_render render (output.drop ex.cursor))⟩])
    | _ => .ok ex.blocks

/-- Claim C7's trailing-block rule, written from the specification: buffer
exhausted in WaitEditEnd with parts collected emits an open-output block;
exhausted in WaitExecEnd emits a block rendering the bytes from the cursor to
the end; any other exhaustion state emits nothing. -/
def trailingBlocksSpec (render : List Byte → String) (output : List Byte)
    (ex : ParseExit) : List CommandBlock :=
  if ex.state = .waitEditEnd ∧ ex.command_parts ≠ [] then
    [⟨ex.command_parts, none⟩]
  else if ex.state = .waitExecEnd then
    [⟨ex.command_parts, some (_render render (output.drop ex.cursor))⟩]
  else []

/-- `CommandSubmissionResult.result_type`. -/
inductive SubmissionResultType
  | finished
  | timeout
  | commandIncomplete
  deriving DecidableEq

/-- `CommandSubmissionResult` (durations are rationals; the code carries
floats opaquely and never computes with them). -/
structure CommandSubmissionResult where
  result_type : SubmissionResultType
  output : Option String
  command_buffer : Option String
  duration_seconds : Option ℚ
  timeout_seconds : Option ℚ
  deriving DecidableEq

/-- The admission and command-buffer update of `submit_command`
(lines 253-268): reject unless the status is AwaitingCommand or InputCommand;
on AwaitingCommand reset the buffer to `[command]` (asserting it was `None`);
on InputCommand append (asserting the buffer is a nonempty list; Python's
`len(None)` raises `TypeError`). -/
def submitCommandAdmission (buf : List Byte)
    (current_command_parts : Option (List String)) (command : String) :
    Except KmuxError (List String) :=
  match _get_session_status buf with
  | .error e => .error e
  | .ok session_status =>
    if ¬(session_status = .awaitingCommand ∨ session_status = .inputCommand) then
      .error .invalidOperation
    else if session_status = .awaitingCommand then
      match current_command_parts with
      | some _ => .error .assertionError
      | none => .ok [command]
    else
      match current_command_parts with
      | none => .error .typeError
      | some parts =>
        if 0 < parts.length then .ok (parts ++ [command])
        else .error .assertionError

/-- The result computation of `submit_command` after the command has been
sent (lines 280-317).  `idle_observed` is whether `session_idle_event.wait()`
completed within the timeout; `buf` is the cumulative output observed on
wake-up; `duration` is the measured wall time.  Python's indexing
`self._parse_output(...)[-1]` raises `IndexError` on an empty block list. -/
def submitCommandOutcome (render : List Byte → String) (buf : List Byte)
    (idle_observed : Bool) (combined_command_buffer : String)
    (duration timeout_seconds : ℚ) : Except KmuxError CommandSubmissionResult :=
  match _parse_output render buf with
  | .error e => .error e
  | .ok blocks =>
    match blocks.getLast? with
    | none => .error .indexError
    | some last_block =>
      if idle_observed then
        match last_block.output with
        | none =>
          .ok ⟨.commandIncomplete, none, some combined_command_buffer, some duration, none⟩
        | some out =>
          .ok ⟨.finished, some out, some combined_command_buffer, some duration, none⟩
      else
        .ok ⟨.timeout, last_block.output, some combined_command_buffer, none,
          some timeout_seconds⟩

/-- `PtySessionStatus`. -/
inductive PtySessionStatus
  | notStarted
  | running
  | finished
  deriving DecidableEq

/-- The `_started` / `_finished` flags of a `PtySession`. -/
structure PtySessionState where
  started : Bool
  finished : Bool
  deriving DecidableEq

/-- The `status` property of `PtySession` (lines 76-83). -/
def ptyStatus (s : PtySessionState) : PtySessionStatus :=
  if s.started = false then .notStarted
  else if s.finished = false then .running
  else .finished

/-- The externally visible actions of `PtySession._stop`, in program order. -/
inductive PtyStopEvent
  | cancelOutputReaderTask
  | removeReaderAndWriter
  | closeMasterFd
  | killChild
  | setFinished
  | invokeOnSessionClosedCallback
  deriving DecidableEq

/-- `PtySession._stop` (lines 224-248) as a state transition that also reports
the actions it performs, in order.  An already-finished session returns
immediately with no actions; a never-started session raises `RuntimeError`;
otherwise the tasks are cancelled, the handlers removed, the FD closed, the
child killed when still alive (`child_alive` models `psutil.pid_exists`),
`_finished` set, and the on-closed callback invoked — in that order. -/
def ptyStop (s : PtySessionState) (child_alive : Bool) :
    Except KmuxError (PtySessionState × List PtyStopEvent) :=
  if s.finished then .ok (s, [])
  else if s.started = false then .error .runtimeError
  else .ok ({ s with finished := true },
    [.cancelOutputReaderTask, .removeReaderAndWriter, .closeMasterFd]
      ++ (if child_alive then [.killChild] else [])
      ++ [.setFinished, .invokeOnSessionClosedCallback])

/-- `PtySession.stop` (line 85) delegates to `_stop`. -/
def ptyStopPublic : PtySessionState → Bool →
    Except KmuxError (PtySessionState × List PtyStopEvent) := ptyStop

/-- `close_on_child_exit_loop` (lines 255-257) calls `_stop` once the
child-exited event is set: child exit and explicit `stop()` share the same
termination path. -/
def closeOnChildExit : PtySessionState → Bool →
    Except KmuxError (PtySessionState × List PtyStopEvent) := ptyStop

/-- The id-relevant state of a `TerminalServer`: the `_next_session_id`
counter and the keys of `_session_items`. -/
structure TerminalServerState where
  next_session_id : Nat
  session_ids : List String
  deriving DecidableEq

/-- The id assignment of `TerminalServer.create_session` (lines 78-97):
`session_id = str(self._next_session_id)`, counter incremented, item
registered under the new id. -/
def create_session (s : TerminalServerState) : String × TerminalServerState :=
  (toString s.next_session_id,
    ⟨s.next_session_id + 1, s.session_ids ++ [toString s.next_session_id]⟩)

/-- Removal of a session entry (the reaper loop's `del`, line 286): the map
entry goes away, the counter is untouched. -/
def remove_session (s : TerminalServerState) (session_id : String) : TerminalServerState :=
  ⟨s.next_session_id, s.session_ids.filter fun i => !(i == session_id)⟩

/-- The registry operations that touch the id namespace. -/
inductive RegistryOp
  | create
  | remove (session_id : String)

/-- Run a sequence of registry operations from a given state, collecting the
ids returned by the `create` operations in order. -/
def runRegistry (s : TerminalServerState) :
    List RegistryOp → List String × TerminalServerState
  | [] => ([], s)
  | .create :: rest =>
    let r := create_session s
    let rest_run := runRegistry r.2 rest
    (r.1 :: rest_run.1, rest_run.2)
  | .remove sid :: rest => runRegistry (remove_session s sid) rest

/-- The number of `create` operations in a sequence. -/
def countCreates : List RegistryOp → Nat
  | [] => 0
  | .create :: rest => countCreates rest + 1
  | .remove _ :: rest => countCreates rest

/-- A fresh `TerminalServer` starts its counter at zero with no sessions
(lines 58-59). -/
def initialServerState : TerminalServerState := ⟨0, []⟩

/-- The method and property names defined by class `BlockPtySession`
(block_pty_session.py lines 164-564). -/
def blockPtySessionMemberNames : List String :=
  ["session_status", "session_initialized", "start", "stop",
   "enter_root_password", "send_keys", "submit_command", "snapshot",
   "get_current_running_command"]

/-- The method that `TerminalServer.execute_command` invokes on the block
session (`session_item.session.execute_command(...)`, terminal_server.py
line 173). -/
def terminalServerForwardedMethod : String := "execute_command"

/-- The field names of `CommandSubmissionResult` (lines 128-145). -/
def commandSubmissionResultFieldNames : List String :=
  ["result_type", "output", "command_buffer", "duration_seconds",
   "timeout_seconds"]

/-- The attribute that `TerminalServer.execute_command` reads off the result
(`result.status`, terminal_server.py line 178). -/
def terminalServerResultTypeField : String := "status"

/-- The outer deadline `TerminalServer.execute_command` imposes on the
forwarded call: `tool_call_timeout = timeout_seconds + 1` (line 170). -/
def executeCommandOuterDeadline (timeout_seconds : ℚ) : ℚ := timeout_seconds + 1

/-- The keyword parameters accepted by `PtySession.__init__`
(pty_session.py lines 39-44). -/
def ptySessionInitParams : List String :=
  ["zshrc_patch", "on_new_output_callback", "on_session_closed_callback"]

/-- The keyword arguments `BlockPtySession.__init__` passes to the
`PtySession` constructor (block_pty_session.py lines 190-196). -/
def blockSessionPtyArgs : List String :=
  ["zshrc_patch", "on_new_output_callback", "on_session_closed_callback",
   "screen_width", "screen_height"]

/-- The `(rows, cols)` window size hardcoded by `PtySession.start`
(pty_session.py line 125). -/
def ptyStartWindowSize : Nat × Nat := (40, 120)

/-- The default `(screen_width, screen_height)` of `BlockPtySession.__init__`
(lines 176-177). -/
def blockSessionDefaultDims : Nat × Nat := (80, 24)

/-- All offsets at which `pat` occurs in `buf`, in increasing order. -/
def occList (buf pat : List Byte) : List Nat :=
  (List.range (buf.length + 1)).filter fun i => matchAt buf pat i

/-- Claim C4's window for the Executing and InputCommand statuses, written
from the specification: the bytes after the last ExecEnd marker, or the whole
buffer if there is none. -/
def windowAfterLastExecEnd (buf : List Byte) : List Byte :=
  match (occList buf (markerValue .execEnd)).getLast? with
  | none => buf
  | some i => buf.drop (i + (markerValue .execEnd).length)

/-- Claim C4's window for the AwaitingCommand status, written from the
specification: the bytes after the second-to-last ExecEnd marker, or the
whole buffer if fewer than two ExecEnd markers exist. -/
def windowAfterSecondToLastExecEnd (buf : List Byte) : List Byte :=
  match (occList buf (markerValue .execEnd)).dropLast.getLast? with
  | none => buf
  | some i => buf.drop (i + (markerValue .execEnd).length)

/-- A pattern has no nontrivial self-overlap: no proper nonempty tail-start
of the pattern begins another occurrence of it. -/
def selfOverlapFree (pat : List Byte) : Prop :=
  ∀ d < pat.length, 0 < d → ¬((pat.drop d).isPrefixOf pat = true)

/-- A concrete renderer standing in for the pyte screen model in the witness
evaluations: the decimal length of the (marker-stripped) input. -/
def renderLen : List Byte → String := fun data => toString data.length

/-- Witness buffer: a single EditStart marker (a freshly initialised idle
session). -/
def bufAwait : List Byte := markerValue .editStart

/-- Witness buffer: a single ExecStart marker (a command just started). -/
def bufExec : List Byte := markerValue .execStart

/-- Witness buffer: one complete edit phase followed by an open execution
phase — `EditStart "ls" EditEnd ExecStart "o"`. -/
def bufC7 : List Byte :=
  markerValue .editStart ++ [108, 115] ++ markerValue .editEnd
    ++ markerValue .execStart ++ [111]

/-- The parse-loop exit configuration for `bufC7`: buffer exhausted while
waiting for ExecEnd, cursor after the ExecStart marker, the command part
collected, no closed blocks. -/
def exC7 : ParseExit := ⟨.waitExecEnd, 153, [[108, 115]], []⟩

/-- The blocks parsed from `bufC7` under `renderLen`. -/
def blocksC2 : List CommandBlock := [⟨[[108, 115]], some ("1")⟩]

theorem statusFromLastTwo_eq_spec (lm : Option BlockMarker × Option BlockMarker) :
    statusFromLastTwo lm = statusOfLastTwoSpec lm := by
  rcases lm with ⟨p1, p2⟩
  rcases p1 with _ | m1
  · rcases p2 with _ | m2
    · rfl
    · cases m2 <;> rfl
  · rcases p2 with _ | m2
    · cases m1 <;> rfl
    · cases m1 <;> cases m2 <;> rfl

/-- C1: for every cumulative output buffer, the derived session status is a
pure function of the last one or two extracted markers, given by the table:
no markers gives NoMarkers; a last marker ExecStart gives Executing;
(ExecEnd, EditStart) as the last two markers, or EditStart as the only marker,
gives AwaitingCommand; (EditEnd, EditStart) gives InputCommand; a last marker
EditEnd or ExecEnd not covered above gives TransientShellBookkeeping; any
other combination raises an internal error. -/
theorem claim_C1_status_is_table_of_last_two_markers (buf : List Byte) :
    _get_session_status buf = statusOfLastTwoSpec (lastTwoMarkers (_extract_markers buf)) :=
  statusFromLastTwo_eq_spec _

/-- C3: `submit_command` raises InvalidOperation whenever the session status
is not AwaitingCommand or InputCommand; on AwaitingCommand it replaces the
multi-part command buffer with the single submitted text; on InputCommand it
appends the submitted text to the existing parts. -/
theorem claim_C3_submit_admission_and_buffer_update (buf : List Byte)
    (parts : Option (List String)) (command : String) (st : SessionStatus)
    (hst : _get_session_status buf = .ok st) :
    (st ≠ .awaitingCommand ∧ st ≠ .inputCommand →
      submitCommandAdmission buf parts command = .error .invalidOperation)
    ∧ (st = .awaitingCommand → parts = none →
      submitCommandAdmission buf parts command = .ok [command])
    ∧ (∀ ps, st = .inputCommand → parts = some ps → ps ≠ [] →
      submitCommandAdmission buf parts command = .ok (ps ++ [command])) := by
  unfold submitCommandAdmission
  rw [hst]
  refine ⟨?_, ?_, ?_⟩
  · rintro ⟨h1, h2⟩
    simp [h1, h2]
  · rintro rfl rfl
    simp
  · rintro ps rfl rfl hne
    simp [List.length_pos, hne]

/-- C2: after a command submission, when the session-idle event is observed
before the timeout, the result is Finished with the last parsed block's
output when that output is non-null and Incomplete when it is null; when the
timeout expires first, the result is Timeout carrying the last parsed block's
(possibly null) output and the timeout duration. -/
theorem claim_C2_submit_result_by_last_block (render : List Byte → String)
    (buf : List Byte) (idle_observed : Bool) (cb : String)
    (duration timeout_seconds : ℚ) (blocks : List CommandBlock)
    (last_block : CommandBlock)
    (hp : _parse_output render buf = .ok blocks)
    (hl : blocks.getLast? = some last_block) :
    (∀ out, idle_observed = true → last_block.output = some out →
      submitCommandOutcome render buf idle_observed cb duration timeout_seconds
        = .ok ⟨.finished, some out, some cb, some duration, none⟩)
    ∧ (idle_observed = true → last_block.output = none →
      submitCommandOutcome render buf idle_observed cb duration timeout_seconds
        = .ok ⟨.commandIncomplete, none, some cb, some duration, none⟩)
    ∧ (idle_observed = false →
      submitCommandOutcome render buf idle_observed cb duration timeout_seconds
        = .ok ⟨.timeout, last_block.output, some cb, none, some timeout_seconds⟩) := by
  unfold submitCommandOutcome
  rw [hp]
  refine ⟨?_, ?_, ?_⟩
  · rintro out hidle hout
    simp [hl, hidle, hout]
  · rintro hidle hout
    simp [hl, hidle, hout]
  · rintro hidle
    simp [hl, hidle]

/-- C7: when the parse loop exhausts the buffer in WaitEditEnd with at least
one command part collected, `_parse_output` emits a final block with null
output; when it exhausts the buffer in WaitExecEnd, it emits a final block
rendering the bytes from the cursor to the end; in all other exit states no
trailing block is emitted. -/
theorem claim_C7_trailing_block_emission (render : List Byte → String)
    (output : List Byte) (ex : ParseExit)
    (h : parseLoop render output (2 * output.length + 2) .waitEditStart 0 [] []
      = .ok ex) :
    _parse_output render output = .ok (ex.blocks ++ trailingBlocksSpec render output ex) := by
  unfold _parse_output trailingBlocksSpec
  rw [h]
  rcases ex with ⟨st, cur, parts, blocks⟩
  cases st
  · simp
  · by_cases hp : parts = []
    · subst hp
      simp
    · have hlen : 0 < parts.length := List.length_pos.mpr hp
      simp [hlen, hp]
  · simp
  · simp

/-- C8: for a started PTY session, `stop()` is idempotent — a second call
after a completed first call changes nothing, emits no actions and returns
without error — and the on-session-closed callback is invoked exactly once,
after `_finished` is set, with child exit and explicit stop sharing the same
termination path. -/
theorem claim_C8_stop_idempotent_callback_once (s : PtySessionState)
    (child_alive : Bool) (s1 : PtySessionState) (tr : List PtyStopEvent)
    (hstarted : s.started = true) (hnotfin : s.finished = false)
    (h : ptyStop s child_alive = .ok (s1, tr)) :
    tr.count .invokeOnSessionClosedCallback = 1
    ∧ ptyStatus s1 = .finished
    ∧ tr.getLast? = some .invokeOnSessionClosedCallback
    ∧ tr.dropLast.getLast? = some .setFinished
    ∧ (∀ child2, ptyStop s1 child2 = .ok (s1, []))
    ∧ closeOnChildExit s child_alive = ptyStop s child_alive
    ∧ ptyStopPublic s child_alive = ptyStop s child_alive := by
  rw [ptyStop, hnotfin, hstarted] at h
  simp only [Bool.false_eq_true, Bool.true_eq_false, if_false, Except.ok.injEq,
    Prod.mk.injEq] at h
  obtain ⟨hs1, htr⟩ := h
  subst hs1
  subst htr
  refine ⟨?_, ?_, ?_, ?_, ?_, rfl, rfl⟩
  · cases child_alive <;> rfl
  · simp [ptyStatus, hstarted]
  · cases child_alive <;> rfl
  · cases child_alive <;> rfl
  · intro child2
    rw [ptyStop]
    simp

theorem runRegistry_create_ids (ops : List RegistryOp) :
    ∀ s : TerminalServerState,
    (runRegistry s ops).1
      = (List.range (countCreates ops)).map (fun k => toString (s.next_session_id + k))
    ∧ (runRegistry s ops).2.next_session_id = s.next_session_id + countCreates ops := by
  induction ops with
  | nil =>
    intro s
    simp [runRegistry, countCreates]
  | cons op rest ih =>
    intro s
    cases op with
    | create =>
      obtain ⟨h1, h2⟩ := ih (create_session s).2
      have hstep : runRegistry s (RegistryOp.create :: rest)
          = ((create_session s).1 :: (runRegistry (create_session s).2 rest).1,
             (runRegistry (create_session s).2 rest).2) := rfl
      have hcount : countCreates (RegistryOp.create :: rest) = countCreates rest + 1 := rfl
      have hnext : (create_session s).2.next_session_id = s.next_session_id + 1 := rfl
      rw [hstep]
      constructor
      · rw [hcount, h1, hnext, List.range_succ_eq_map, List.map_cons, List.map_map]
        refine congrArg₂ List.cons ?_ ?_
        · show toString s.next_session_id = toString (s.next_session_id + 0)
          simp
        · apply List.map_congr_left
          intro a _
          simp only [Function.comp_apply]
          congr 1
          omega
      · rw [hcount, h2, hnext]
        omega
    | remove sid =>
      have h := ih (remove_session s sid)
      simpa [runRegistry, countCreates, remove_session] using h

/-- C9: session ids are drawn from a monotonically increasing counter
starting at zero — over any sequence of creations and deletions, the ids
returned by successive `create_session` calls are exactly the decimal strings
of 0, 1, 2, …, so they are unique, strictly increasing in creation order, and
never reused even after deletion. -/
theorem claim_C9_session_ids_counter_from_zero (ops : List RegistryOp) :
    (runRegistry initialServerState ops).1
      = (List.range (countCreates ops)).map (fun k => toString k)
    ∧ (runRegistry initialServerState ops).2.next_session_id = countCreates ops := by
  have h := runRegistry_create_ids ops initialServerState
  simpa [initialServerState] using h

/-- C5: the claim fails on the code — `TerminalServer.execute_command` calls
`session.execute_command(...)` and reads `result.status`, but
`BlockPtySession` defines no `execute_command` member (the method is named
`submit_command`) and `CommandSubmissionResult` has no `status` field (the
field is `result_type`), so the forwarding raises `AttributeError` instead of
reaching the block session. -/
theorem claim_C5_forwarded_method_missing :
    terminalServerForwardedMethod ∉ blockPtySessionMemberNames
    ∧ terminalServerResultTypeField ∉ commandSubmissionResultFieldNames
    ∧ ∀ timeout_seconds : ℚ, executeCommandOuterDeadline timeout_seconds
        = timeout_seconds + 1 := by
  refine ⟨by decide, by decide, fun _ => rfl⟩

/-- C6: the claim fails on the code — `BlockPtySession.__init__` passes
`screen_width` / `screen_height` keyword arguments that `PtySession.__init__`
does not accept (so construction raises `TypeError` for every choice of
dimensions, the 80×24 default included), and `PtySession.start` hardcodes the
window size to 40 rows × 120 columns instead of the configured dimensions. -/
theorem claim_C6_screen_dims_not_plumbed :
    ("screen_width" ∈ blockSessionPtyArgs ∧ "screen_width" ∉ ptySessionInitParams)
    ∧ ("screen_height" ∈ blockSessionPtyArgs ∧ "screen_height" ∉ ptySessionInitParams)
    ∧ ptyStartWindowSize ≠ (blockSessionDefaultDims.2, blockSessionDefaultDims.1) := by
  refine ⟨⟨by decide, by decide⟩, ⟨by decide, by decide⟩, by decide⟩

theorem matchAt_le_length {buf pat : List Byte} {i : Nat} (hpat : 0 < pat.length)
    (h : matchAt buf pat i = true) : i + pat.length ≤ buf.length := by
  unfold matchAt at h
  have hpre : pat <+: buf.drop i := List.isPrefixOf_iff_prefix.mp h
  have hlen : pat.length ≤ (buf.drop i).length := hpre.length_le
  rw [List.length_drop] at hlen
  by_cases hi : i ≤ buf.length
  · omega
  · exfalso
    have hdrop : buf.drop i = [] := List.drop_eq_nil_of_le (by omega)
    rw [hdrop] at hpre
    have := hpre.length_le
    simp at this
    omega

theorem pyRfind_unbounded (buf pat : List Byte) (hpat : 0 < pat.length) :
    pyRfind buf pat buf.length = (occList buf pat).getLast? := by
  unfold pyRfind occList
  congr 1
  apply List.filter_congr
  intro i _
  cases h : matchAt buf pat i
  · simp
  · simp [matchAt_le_length hpat h]

theorem pyRfind_bounded (buf pat : List Byte) (e : Nat) :
    pyRfind buf pat e
      = ((occList buf pat).filter fun i => decide (i + pat.length ≤ e)).getLast? := by
  unfold pyRfind occList
  rw [List.filter_filter]

theorem execEnd_selfOverlapFree : selfOverlapFree (markerValue .execEnd) := by
  unfold selfOverlapFree
  decide

theorem matches_separated {buf pat : List Byte} (hso : selfOverlapFree pat)
    {i j : Nat} (hi : matchAt buf pat i = true) (hj : matchAt buf pat j = true)
    (hij : i < j) : i + pat.length ≤ j := by
  by_contra hlt
  push_neg at hlt
  have hd1 : 0 < j - i := by omega
  have hd2 : j - i < pat.length := by omega
  apply hso (j - i) hd2 hd1
  have hpi : pat <+: buf.drop i := List.isPrefixOf_iff_prefix.mp hi
  have hpj : pat <+: buf.drop j := List.isPrefixOf_iff_prefix.mp hj
  have hdropped : pat.drop (j - i) <+: buf.drop j := by
    obtain ⟨t, ht⟩ := hpi
    have hsplit : (buf.drop i).drop (j - i) = pat.drop (j - i) ++ t := by
      rw [← ht, List.drop_append_of_le_length (by omega)]
    rw [List.drop_drop] at hsplit
    have hj2 : i + (j - i) = j := by omega
    rw [hj2] at hsplit
    exact ⟨t, hsplit.symm⟩
  have hpp : pat.drop (j - i) <+: pat := by
    apply List.prefix_of_prefix_length_le hdropped hpj
    rw [List.length_drop]
    omega
  exact List.isPrefixOf_iff_prefix.mpr hpp

theorem occList_pairwise_lt (buf pat : List Byte) :
    (occList buf pat).Pairwise (· < ·) :=
  (List.pairwise_lt_range _).filter _

theorem occList_pairwise_separated (buf pat : List Byte)
    (hso : selfOverlapFree pat) :
    (occList buf pat).Pairwise fun a b => a + pat.length ≤ b := by
  apply List.Pairwise.imp_of_mem ?_ (occList_pairwise_lt buf pat)
  intro a b ha hb hab
  exact matches_separated hso (List.of_mem_filter ha) (List.of_mem_filter hb) hab

theorem filter_le_getLast_eq_dropLast (len : Nat) (hlen : 0 < len) :
    ∀ (l : List Nat) (a : Nat), l.Pairwise (fun x y => x + len ≤ y) →
      l.getLast? = some a →
      (l.filter fun i => decide (i + len ≤ a)) = l.dropLast := by
  intro l
  induction l with
  | nil =>
    intro a _ h
    simp at h
  | cons x t ih =>
    intro a hpw hlast
    cases t with
    | nil =>
      simp only [List.getLast?_singleton, Option.some.injEq] at hlast
      subst hlast
      have hx : ¬(x + len ≤ x) := by omega
      simp [hx]
    | cons y u =>
      have hlast2 : (y :: u).getLast? = some a := by
        rw [← hlast]
        rfl
      have hmem : a ∈ y :: u := List.mem_of_mem_getLast? hlast2
      rw [List.pairwise_cons] at hpw
      have hxa : x + len ≤ a := hpw.1 a hmem
      have hrest := ih a hpw.2 hlast2
      simp only [List.filter_cons, decide_eq_true_eq, hxa, if_pos, hrest]
      rfl

/-- C4 assembled: the default snapshot windows. -/
theorem claim_C4_snapshot_windows (render : List Byte → String) (buf : List Byte) :
    snapshot render buf true = .ok (_render render buf)
    ∧ (∀ st, _get_session_status buf = .ok st →
        st = .executing ∨ st = .inputCommand →
        snapshot render buf false = .ok (_render render (windowAfterLastExecEnd buf)))
    ∧ (_get_session_status buf = .ok .awaitingCommand →
        snapshot render buf false
          = .ok (_render render (windowAfterSecondToLastExecEnd buf))) := by
  have hpat : 0 < (markerValue BlockMarker.execEnd).length := by decide
  refine ⟨rfl, ?_, ?_⟩
  · intro st hst hor
    unfold snapshot
    rw [hst]
    simp only [Bool.false_eq_true, if_false]
    rw [if_pos hor]
    unfold windowAfterLastExecEnd
    rw [pyRfind_unbounded buf _ hpat]
    cases hocc : (occList buf (markerValue .execEnd)).getLast? with
    | none => simp
    | some i => simp
  · intro hst
    unfold snapshot
    rw [hst]
    have hne : ¬(SessionStatus.awaitingCommand = .executing
        ∨ SessionStatus.awaitingCommand = .inputCommand) := by decide
    simp only [Bool.false_eq_true, if_false, if_neg hne, if_true]
    unfold windowAfterSecondToLastExecEnd
    rw [pyRfind_unbounded buf _ hpat]
    cases hocc : (occList buf (markerValue .execEnd)).getLast? with
    | none =>
      have hnil : occList buf (markerValue .execEnd) = []
        := List.getLast?_eq_none_iff.mp hocc
      simp only []
      rw [pyRfind_unbounded buf _ hpat, hocc, hnil]
      simp
    | some a =>
      simp only []
      rw [pyRfind_bounded buf _ a,
        filter_le_getLast_eq_dropLast _ hpat _ a
          (occList_pairwise_separated buf _ execEnd_selfOverlapFree) hocc]
      cases h2 : (occList buf (markerValue .execEnd)).dropLast.getLast? with
      | none => simp
      | some b => simp

/-- C10: for every buffer whose derived status is NoMarkers or
TransientShellBookkeeping, `snapshot` with `include_all = false` raises an
error rather than returning a view, while `snapshot` with
`include_all = true` succeeds on every buffer, rendering the whole cumulative
buffer. -/
theorem claim_C10_snapshot_default_window_partiality (render : List Byte → String)
    (buf : List Byte) :
    snapshot render buf true = .ok (_render render buf)
    ∧ (∀ st, _get_session_status buf = .ok st →
        st = .noMarkers ∨ st = .transientZshProcessing →
        snapshot render buf false = .error .notImplementedError) := by
  constructor
  · rfl
  · intro st hst hor
    unfold snapshot
    rw [hst]
    rcases hor with rfl | rfl <;> simp

set_option maxRecDepth 100000 in
/-- Witness for C3: on a freshly awaiting session (buffer = one EditStart
marker) with an empty command buffer, submission is admitted and the buffer
becomes the single submitted text. -/
theorem claim_C3_witness :
    submitCommandAdmission bufAwait none ("ls") = .ok [("ls")] :=
  (claim_C3_submit_admission_and_buffer_update bufAwait none ("ls")
    .awaitingCommand (by decide)).2.1 rfl rfl

set_option maxRecDepth 100000 in
/-- Witness for C2: on the concrete buffer `bufC7` (whose last parsed block
has output `"1"` under `renderLen`), an idle-observed submission returns
Finished with that output. -/
theorem claim_C2_witness :
    submitCommandOutcome renderLen bufC7 true ("ls") 1 5
      = .ok ⟨.finished, some ("1"), some ("ls"), some 1, none⟩ :=
  (claim_C2_submit_result_by_last_block renderLen bufC7 true ("ls") 1 5
    blocksC2 ⟨[[108, 115]], some ("1")⟩ (by decide) (by decide)).1 ("1") rfl rfl

set_option maxRecDepth 100000 in
/-- Witness for C7: the parse loop exhausts `bufC7` in WaitExecEnd, so
`_parse_output` emits the trailing in-flight block. -/
theorem claim_C7_witness :
    _parse_output renderLen bufC7
      = .ok (exC7.blocks ++ trailingBlocksSpec renderLen bufC7 exC7) :=
  claim_C7_trailing_block_emission renderLen bufC7 exC7 (by decide)

set_option maxRecDepth 100000 in
/-- Witness for C8: after a completed first stop of a started session, a
second stop is a no-op returning no actions. -/
theorem claim_C8_witness :
    ptyStop ⟨true, true⟩ true = .ok (⟨true, true⟩, []) :=
  (claim_C8_stop_idempotent_callback_once ⟨true, false⟩ true ⟨true, true⟩
    [.cancelOutputReaderTask, .removeReaderAndWriter, .closeMasterFd, .killChild,
      .setFinished, .invokeOnSessionClosedCallback] rfl rfl (by decide)).2.2.2.2.1 true

set_option maxRecDepth 100000 in
/-- Witness for C4: on a buffer whose status is Executing and which contains
no ExecEnd marker, the default snapshot renders the whole buffer. -/
theorem claim_C4_witness :
    snapshot renderLen bufExec false
      = .ok (_render renderLen (windowAfterLastExecEnd bufExec)) :=
  (claim_C4_snapshot_windows renderLen bufExec).2.1 .executing (by decide) (Or.inl rfl)

set_option maxRecDepth 100000 in
/-- Witness for C10: on the empty buffer (status NoMarkers) the default
snapshot raises `NotImplementedError`. -/
theorem claim_C10_witness :
    snapshot renderLen ([] : List Byte) false = .error .notImplementedError :=
  (claim_C10_snapshot_default_window_partiality renderLen []).2 .noMarkers
    (by decide) (Or.inl rfl)

end Kmux
